import Mathlib

/- Verification of the Azure DevOps MCP server core: record parsing,
   client response handling and tool handlers, shallowly embedded from
   the Python source (parsers.py, models.py, client.py,
   user_story_tools.py, test_case_tools.py, config.py). -/

namespace AzureDevOpsMCP

/-- Value of the polymorphic `System.AssignedTo` raw field: either a
structured identity object (whose `displayName` sub-field may itself be
absent) or a plain string. -/
inductive AssignedToValue where
  | identity (displayName : Option String)
  | plain (s : String)
deriving Repr, DecidableEq

/-- The raw `fields` dictionary of a work-item payload, typed per the
service schema; every field may be absent (models `fields.get(key)` /
`fields.get(key, "")` lookups in parsers.py). -/
structure RawFields where
  title : Option String := none
  workItemType : Option String := none
  state : Option String := none
  assignedTo : Option AssignedToValue := none
  areaPath : Option String := none
  iterationPath : Option String := none
  description : Option String := none
  createdDate : Option String := none
  changedDate : Option String := none
  tags : Option String := none
  steps : Option String := none
  priority : Option Int := none
  automationStatus : Option String := none
deriving Repr, DecidableEq

/-- A raw work-item record as received from the remote service: the
top-level `id` key (absent models a dictionary with no identifier) and
the optional `fields` dictionary (`work_item_data.get("fields", {})`). -/
structure RawRecord where
  id : Option Int := none
  fields : Option RawFields := none
deriving Repr, DecidableEq

/-- WorkItem model (models.py). -/
structure WorkItem where
  id : Int
  title : String
  work_item_type : String
  state : String
  assigned_to : Option String := none
  area_path : String
  iteration_path : String
  description : Option String := none
  created_date : String
  changed_date : String
  tags : Option String := none
deriving Repr, DecidableEq

/-- TestCase model (models.py): WorkItem plus test-specific fields. -/
structure TestCase where
  id : Int
  title : String
  work_item_type : String
  state : String
  assigned_to : Option String := none
  area_path : String
  iteration_path : String
  description : Option String := none
  created_date : String
  changed_date : String
  tags : Option String := none
  test_steps : Option String := none
  priority : Option Int := none
  automation_status : Option String := none
deriving Repr, DecidableEq

/-- Resolution of the polymorphic assignee field (parsers.py lines
13-20 and 41-48): a structured identity contributes its displayName
sub-field (possibly absent), a plain string is used directly, absence
maps to absent. -/
def extractAssignedTo (v : Option AssignedToValue) : Option String :=
  match v with
  | none => none
  | some (.identity dn) => dn
  | some (.plain s) => some s

/-- parse_work_item (parsers.py): raises (models as `Except.error`) only
when the top-level identifier key is absent; every `fields` lookup uses
a default (empty string for required strings, absent for optional
fields). -/
def parse_work_item (work_item_data : RawRecord) : Except String WorkItem :=
  let fields := work_item_data.fields.getD {}
  let assigned_to := extractAssignedTo fields.assignedTo
  match work_item_data.id with
  | none => .error ("KeyError: id")
  | some i =>
      .ok { id := i
            title := fields.title.getD ""
            work_item_type := fields.workItemType.getD ""
            state := fields.state.getD ""
            assigned_to := assigned_to
            area_path := fields.areaPath.getD ""
            iteration_path := fields.iterationPath.getD ""
            description := fields.description
            created_date := fields.createdDate.getD ""
            changed_date := fields.changedDate.getD ""
            tags := fields.tags }

/-- parse_test_case (parsers.py): same shape as parse_work_item with the
three test-case-specific optional fields added. -/
def parse_test_case (work_item_data : RawRecord) : Except String TestCase :=
  let fields := work_item_data.fields.getD {}
  let assigned_to := extractAssignedTo fields.assignedTo
  match work_item_data.id with
  | none => .error ("KeyError: id")
  | some i =>
      .ok { id := i
            title := fields.title.getD ""
            work_item_type := fields.workItemType.getD ""
            state := fields.state.getD ""
            assigned_to := assigned_to
            area_path := fields.areaPath.getD ""
            iteration_path := fields.iterationPath.getD ""
            description := fields.description
            created_date := fields.createdDate.getD ""
            changed_date := fields.changedDate.getD ""
            tags := fields.tags
            test_steps := fields.steps
            priority := fields.priority
            automation_status := fields.automationStatus }

/-- A field value placed in a patch document or field map (strings and
integers are the only value shapes the handlers produce). -/
inductive FieldValue where
  | str (s : String)
  | int (n : Int)
deriving Repr, DecidableEq

/-- One JSON-patch operation entry, as built by create_work_item and
update_work_item (client.py). -/
structure PatchOp where
  op : String
  path : String
  value : FieldValue
deriving Repr, DecidableEq

/-- Response of a single-work-item endpoint (GET, PATCH or POST on one
work item): HTTP status, the JSON body on success, and the body text
quoted in HTTP error messages. -/
structure WorkItemResponse where
  status : Nat
  record : RawRecord
  text : String
deriving Repr, DecidableEq

/-- Response of the WIQL query endpoint: HTTP status, the identifiers
listed under the workItems key, and the body text for error messages. -/
structure WiqlResponse where
  status : Nat
  workItemIds : List Int
  text : String
deriving Repr, DecidableEq

/-- Response of the batch work-item details endpoint: HTTP status, the
records under the value key, and the body text for error messages. -/
structure DetailsResponse where
  status : Nat
  value : List RawRecord
  text : String
deriving Repr, DecidableEq

/-- requests raise_for_status raises HTTPError exactly for status codes
in 400..599. -/
def raisesForStatus (s : Nat) : Bool := 400 ≤ s && s < 600

/-- The message of the HTTPError branch of every client operation
(client.py): HTTP Error code and body text. -/
def httpErrorMsg (status : Nat) (text : String) : String :=
  "HTTP Error " ++ toString status ++ ": " ++ text

/-- Python list slicing l[:top] as used for work_item_ids[:top]
(client.py): a nonnegative bound keeps the first top elements, a
negative bound drops the last -top. -/
def pySliceTo (top : Int) (l : List α) : List α :=
  l.take (if 0 ≤ top then top.toNat else ((l.length : Int) + top).toNat)

/-- AzureDevOpsClient.get_work_items (client.py lines 82-143): run the
WIQL query, collect the identifiers, return [] when there are none,
truncate the identifiers to top, then batch-fetch full records for
exactly those identifiers. The second endpoint is modelled as a
function from the requested identifier list to its response. Every
failure surfaces as an error message (the SSL, proxy, connection and
timeout branches are further message shapes of the same error channel;
the HTTP-status branch is modelled explicitly). -/
def get_work_items (work_item_type : String) (top : Int)
    (wiql : WiqlResponse) (details : List Int → DetailsResponse) :
    Except String (List RawRecord) :=
  if raisesForStatus wiql.status then
    .error (httpErrorMsg wiql.status wiql.text)
  else
    let work_item_ids := wiql.workItemIds
    if work_item_ids = [] then .ok []
    else
      let requested := pySliceTo top work_item_ids
      let resp := details requested
      if raisesForStatus resp.status then
        .error (httpErrorMsg resp.status resp.text)
      else .ok resp.value

/-- AzureDevOpsClient.search_work_items_by_title (client.py lines
222-284): same two-phase shape as get_work_items with a
title-substring clause added to the WIQL text. -/
def search_work_items_by_title (search_term work_item_type : String)
    (top : Int) (wiql : WiqlResponse)
    (details : List Int → DetailsResponse) :
    Except String (List RawRecord) :=
  if raisesForStatus wiql.status then
    .error (httpErrorMsg wiql.status wiql.text)
  else
    let work_item_ids := wiql.workItemIds
    if work_item_ids = [] then .ok []
    else
      let requested := pySliceTo top work_item_ids
      let resp := details requested
      if raisesForStatus resp.status then
        .error (httpErrorMsg resp.status resp.text)
      else .ok resp.value

/-- AzureDevOpsClient.get_work_items_by_state (client.py lines
344-406): same two-phase shape with an exact state clause added to the
WIQL text. -/
def get_work_items_by_state (state work_item_type : String) (top : Int)
    (wiql : WiqlResponse) (details : List Int → DetailsResponse) :
    Except String (List RawRecord) :=
  if raisesForStatus wiql.status then
    .error (httpErrorMsg wiql.status wiql.text)
  else
    let work_item_ids := wiql.workItemIds
    if work_item_ids = [] then .ok []
    else
      let requested := pySliceTo top work_item_ids
      let resp := details requested
      if raisesForStatus resp.status then
        .error (httpErrorMsg resp.status resp.text)
      else .ok resp.value

/-- AzureDevOpsClient.get_work_item_by_id (client.py lines 145-173): a
404 status returns None (the not-found sentinel) before
raise_for_status runs; any other error status raises the HTTPError
message; success returns the JSON record. -/
def get_work_item_by_id (work_item_id : Int) (resp : WorkItemResponse) :
    Except String (Option RawRecord) :=
  if resp.status = 404 then .ok none
  else if raisesForStatus resp.status then
    .error (httpErrorMsg resp.status resp.text)
  else .ok (some resp.record)

/-- The patch document of AzureDevOpsClient.update_work_item (client.py
lines 180-186): one replace operation per field-map entry (the caller
pre-filters absent values, so every entry produces an operation). -/
def update_patch_operations (updates : List (String × FieldValue)) :
    List PatchOp :=
  updates.map (fun u => { op := "replace", path := "/fields/" ++ u.1, value := u.2 })

/-- AzureDevOpsClient.update_work_item (client.py lines 175-220): a 404
status raises a plain not-found Exception inside the try block, which
the final catch-all except clause of the same try re-wraps, so the
raised message is Unexpected error: Work item id not found; any other
error status raises the HTTPError message; success returns the updated
record. -/
def update_work_item (work_item_id : Int)
    (updates : List (String × FieldValue)) (resp : WorkItemResponse) :
    Except String RawRecord :=
  let _patch := update_patch_operations updates
  if resp.status = 404 then
    .error ("Unexpected error: Work item " ++ toString work_item_id ++ " not found")
  else if raisesForStatus resp.status then
    .error (httpErrorMsg resp.status resp.text)
  else .ok resp.record

/-- The patch document of AzureDevOpsClient.create_work_item (client.py
lines 290-311): an add operation for the title, one for the work-item
type, then one add operation per field-map entry (the None filter is
the identity here because the handlers only insert present values). -/
def create_patch_operations (work_item_type title : String)
    (fields : List (String × FieldValue)) : List PatchOp :=
  { op := "add", path := "/fields/System.Title", value := FieldValue.str title } ::
  { op := "add", path := "/fields/System.WorkItemType", value := FieldValue.str work_item_type } ::
  fields.map (fun f => { op := "add", path := "/fields/" ++ f.1, value := f.2 })

/-- AzureDevOpsClient.create_work_item (client.py lines 286-342):
submits the create patch document; an error status raises the
HTTPError message; success returns the created record (no 404 special
case). -/
def create_work_item (work_item_type title : String)
    (fields : List (String × FieldValue)) (resp : WorkItemResponse) :
    Except String RawRecord :=
  let _patch := create_patch_operations work_item_type title fields
  if raisesForStatus resp.status then
    .error (httpErrorMsg resp.status resp.text)
  else .ok resp.record

/-- Limit validation of the list and filter-by-state handlers
(user_story_tools.py lines 27 and 125, test_case_tools.py lines 27 and
130): limit = min(max(1, limit), 200). -/
def clampListLimit (limit : Int) : Int := min (max 1 limit) 200

/-- Limit validation of the search handlers (user_story_tools.py line
87, test_case_tools.py line 92): limit = min(max(1, limit), 100). -/
def clampSearchLimit (limit : Int) : Int := min (max 1 limit) 100

/-- One optional entry of an insertion-ordered field dictionary: a
present value contributes the pair, an absent one contributes
nothing. -/
def optField (name : String) (v : Option FieldValue) :
    List (String × FieldValue) :=
  match v with
  | some x => [(name, x)]
  | none => []

/-- The type tag read by the handlers before updating or rendering:
work_item_data.get("fields", {}).get("System.WorkItemType", ""). -/
def typeTag (d : RawRecord) : String :=
  ((d.fields.getD {}).workItemType).getD ""

/-- The parse loop shared by the user-story batch handlers
(user_story_tools.py lines 33-41, 97-104, 134-142): parse each raw
record in order, keep the successes, skip (continue past) each record
whose parse raises. -/
def parseLoopWorkItems : List RawRecord → List WorkItem
  | [] => []
  | d :: rest =>
      match parse_work_item d with
      | .ok w => w :: parseLoopWorkItems rest
      | .error _ => parseLoopWorkItems rest

/-- The parse loop shared by the test-case batch handlers
(test_case_tools.py lines 33-41, 102-109, 140-147): same shape with
parse_test_case. -/
def parseLoopTestCases : List RawRecord → List TestCase
  | [] => []
  | d :: rest =>
      match parse_test_case d with
      | .ok t => t :: parseLoopTestCases rest
      | .error _ => parseLoopTestCases rest

/-- Stand-in for the Python str() rendering of one parsed work item
dict; no claim constrains its exact text. -/
def renderWorkItem (w : WorkItem) : String := reprStr w

/-- Stand-in for the Python str() rendering of the list of parsed
work-item dicts; no claim constrains its exact text. -/
def renderWorkItems (l : List WorkItem) : String := reprStr l

/-- Stand-in for the Python str() rendering of one parsed test case
dict; no claim constrains its exact text. -/
def renderTestCase (t : TestCase) : String := reprStr t

/-- Stand-in for the Python str() rendering of the list of parsed
test-case dicts; no claim constrains its exact text. -/
def renderTestCases (l : List TestCase) : String := reprStr l

/-- get_user_stories (user_story_tools.py lines 14-45): clamp the
limit, fetch, parse each record tolerantly, render the count and the
listing; every raised error becomes the prefixed text message. -/
def get_user_stories (limit : Int) (wiql : WiqlResponse)
    (details : List Int → DetailsResponse) : String :=
  let limit := clampListLimit limit
  match get_work_items "User Story" limit wiql details with
  | .error e => "Error retrieving user stories: " ++ e
  | .ok work_items_data =>
      let work_items := parseLoopWorkItems work_items_data
      "Retrieved " ++ toString work_items.length ++ " user stories:\n" ++
        renderWorkItems work_items

/-- get_story_details (user_story_tools.py lines 47-71): fetch by
identifier, report not found on the sentinel, otherwise parse and
render the detail view with no type-tag check; every raised error
becomes the prefixed text message. -/
def get_story_details (story_id : Int) (resp : WorkItemResponse) : String :=
  match get_work_item_by_id story_id resp with
  | .error e => "Error retrieving story details: " ++ e
  | .ok none => "Work item with ID " ++ toString story_id ++ " not found"
  | .ok (some work_item_data) =>
      match parse_work_item work_item_data with
      | .error e => "Error retrieving story details: " ++ e
      | .ok work_item => "Story Details:\n" ++ renderWorkItem work_item

/-- search_stories_by_title (user_story_tools.py lines 73-109): clamp
the limit to [1,100], search, parse tolerantly, render count and
listing; every raised error becomes the prefixed text message. -/
def search_stories_by_title (search_term : String) (limit : Int)
    (wiql : WiqlResponse) (details : List Int → DetailsResponse) : String :=
  let limit := clampSearchLimit limit
  match search_work_items_by_title search_term "User Story" limit wiql details with
  | .error e => "Error searching stories: " ++ e
  | .ok work_items_data =>
      let work_items := parseLoopWorkItems work_items_data
      "Found " ++ toString work_items.length ++ " stories matching '" ++
        search_term ++ "':\n" ++ renderWorkItems work_items

/-- get_stories_by_state (user_story_tools.py lines 111-147): clamp
the limit to [1,200], filter by state, parse tolerantly, render count
and listing; every raised error becomes the prefixed text message. -/
def get_stories_by_state (state : String) (limit : Int)
    (wiql : WiqlResponse) (details : List Int → DetailsResponse) : String :=
  let limit := clampListLimit limit
  match get_work_items_by_state state "User Story" limit wiql details with
  | .error e => "Error retrieving stories by state: " ++ e
  | .ok work_items_data =>
      let work_items := parseLoopWorkItems work_items_data
      "Found " ++ toString work_items.length ++ " stories in state '" ++
        state ++ "':\n" ++ renderWorkItems work_items

/-- Arguments of update_story (user_story_tools.py lines 149-161). -/
structure UpdateStoryArgs where
  story_id : Int
  title : Option String := none
  state : Option String := none
  assigned_to : Option String := none
  description : Option String := none
  priority : Option Int := none
  story_points : Option Int := none
  tags : Option String := none
  area_path : Option String := none
  iteration_path : Option String := none
deriving Repr, DecidableEq

/-- The updates dictionary of update_story (user_story_tools.py lines
191-208): the field_mapping entries in insertion order, keeping only
the parameters that are not None. -/
def update_story_updates (a : UpdateStoryArgs) : List (String × FieldValue) :=
  optField "System.Title" (a.title.map FieldValue.str) ++
  optField "System.State" (a.state.map FieldValue.str) ++
  optField "System.AssignedTo" (a.assigned_to.map FieldValue.str) ++
  optField "System.Description" (a.description.map FieldValue.str) ++
  optField "Microsoft.VSTS.Common.Priority" (a.priority.map FieldValue.int) ++
  optField "Microsoft.VSTS.Scheduling.StoryPoints" (a.story_points.map FieldValue.int) ++
  optField "System.Tags" (a.tags.map FieldValue.str) ++
  optField "System.AreaPath" (a.area_path.map FieldValue.str) ++
  optField "System.IterationPath" (a.iteration_path.map FieldValue.str)

/-- update_story (user_story_tools.py lines 149-222). The second
component records the transport update call the handler issued (none
when client.update_work_item was never reached). The handler fetches
first; the not-found sentinel and a type tag other than User Story
return descriptive messages without updating; an empty updates
dictionary returns the no-fields message without updating; every
raised error becomes the prefixed text message. -/
def update_story (a : UpdateStoryArgs)
    (fetchResp updateResp : WorkItemResponse) :
    String × Option (Int × List (String × FieldValue)) :=
  match get_work_item_by_id a.story_id fetchResp with
  | .error e => ("Error updating user story " ++ toString a.story_id ++ ": " ++ e, none)
  | .ok none => ("User story with ID " ++ toString a.story_id ++ " not found", none)
  | .ok (some existing_item) =>
      let work_item_type := typeTag existing_item
      if work_item_type ≠ "User Story" then
        ("Work item " ++ toString a.story_id ++ " is not a user story (it's a " ++
          work_item_type ++ ")", none)
      else
        let updates := update_story_updates a
        if updates = [] then
          ("No fields provided for update. Please specify at least one field to update.", none)
        else
          match update_work_item a.story_id updates updateResp with
          | .error e =>
              ("Error updating user story " ++ toString a.story_id ++ ": " ++ e,
                some (a.story_id, updates))
          | .ok updated_item =>
              match parse_work_item updated_item with
              | .error e =>
                  ("Error updating user story " ++ toString a.story_id ++ ": " ++ e,
                    some (a.story_id, updates))
              | .ok updated_story =>
                  ("Successfully updated user story " ++ toString a.story_id ++ ":\n" ++
                    renderWorkItem updated_story, some (a.story_id, updates))

/-- Arguments of create_user_story (user_story_tools.py lines 224-234). -/
structure CreateUserStoryArgs where
  title : String
  description : Option String := none
  priority : Option Int := none
  story_points : Option Int := none
  assigned_to : Option String := none
  area_path : Option String := none
  iteration_path : Option String := none
  tags : Option String := none
deriving Repr, DecidableEq

/-- The fields dictionary of create_user_story (user_story_tools.py
lines 252-271): the caller-supplied optional fields in source order,
then System.State = New appended last unconditionally. -/
def create_user_story_fields (a : CreateUserStoryArgs) :
    List (String × FieldValue) :=
  optField "System.Description" (a.description.map FieldValue.str) ++
  optField "Microsoft.VSTS.Common.Priority" (a.priority.map FieldValue.int) ++
  optField "Microsoft.VSTS.Scheduling.StoryPoints" (a.story_points.map FieldValue.int) ++
  optField "System.AssignedTo" (a.assigned_to.map FieldValue.str) ++
  optField "System.AreaPath" (a.area_path.map FieldValue.str) ++
  optField "System.IterationPath" (a.iteration_path.map FieldValue.str) ++
  optField "System.Tags" (a.tags.map FieldValue.str) ++
  [("System.State", FieldValue.str "New")]

/-- create_user_story (user_story_tools.py lines 224-282). The second
component records the transport create call (type tag, title, field
map), which the handler always issues; every raised error becomes the
prefixed text message. -/
def create_user_story (a : CreateUserStoryArgs)
    (createResp : WorkItemResponse) :
    String × (String × String × List (String × FieldValue)) :=
  let fields := create_user_story_fields a
  let call := ("User Story", a.title, fields)
  match create_work_item "User Story" a.title fields createResp with
  | .error e => ("Error creating user story: " ++ e, call)
  | .ok created_item =>
      match parse_work_item created_item with
      | .error e => ("Error creating user story: " ++ e, call)
      | .ok created_story =>
          ("Successfully created user story " ++ toString created_story.id ++ ":\n" ++
            renderWorkItem created_story, call)

/-- get_test_cases (test_case_tools.py lines 14-45): clamp the limit,
fetch, parse each record tolerantly, render the count and the listing;
every raised error becomes the prefixed text message. -/
def get_test_cases (limit : Int) (wiql : WiqlResponse)
    (details : List Int → DetailsResponse) : String :=
  let limit := clampListLimit limit
  match get_work_items "Test Case" limit wiql details with
  | .error e => "Error retrieving test cases: " ++ e
  | .ok work_items_data =>
      let test_cases := parseLoopTestCases work_items_data
      "Retrieved " ++ toString test_cases.length ++ " test cases:\n" ++
        renderTestCases test_cases

/-- get_test_case_details (test_case_tools.py lines 47-76): fetch by
identifier, report not found on the sentinel, return a wrong-type
message when the type tag is not Test Case, otherwise parse and render
the detail view; every raised error becomes the prefixed text
message. -/
def get_test_case_details (test_case_id : Int) (resp : WorkItemResponse) : String :=
  match get_work_item_by_id test_case_id resp with
  | .error e => "Error retrieving test case details: " ++ e
  | .ok none => "Test case with ID " ++ toString test_case_id ++ " not found"
  | .ok (some work_item_data) =>
      let work_item_type := typeTag work_item_data
      if work_item_type ≠ "Test Case" then
        "Work item " ++ toString test_case_id ++ " is not a test case (it's a " ++
          work_item_type ++ ")"
      else
        match parse_test_case work_item_data with
        | .error e => "Error retrieving test case details: " ++ e
        | .ok test_case => "Test Case Details:\n" ++ renderTestCase test_case

/-- search_test_cases_by_title (test_case_tools.py lines 78-114):
clamp the limit to [1,100], search, parse tolerantly, render count and
listing; every raised error becomes the prefixed text message. -/
def search_test_cases_by_title (search_term : String) (limit : Int)
    (wiql : WiqlResponse) (details : List Int → DetailsResponse) : String :=
  let limit := clampSearchLimit limit
  match search_work_items_by_title search_term "Test Case" limit wiql details with
  | .error e => "Error searching test cases: " ++ e
  | .ok work_items_data =>
      let test_cases := parseLoopTestCases work_items_data
      "Found " ++ toString test_cases.length ++ " test cases matching '" ++
        search_term ++ "':\n" ++ renderTestCases test_cases

/-- get_test_cases_by_state (test_case_tools.py lines 116-152): clamp
the limit to [1,200], filter by state, parse tolerantly, render count
and listing; every raised error becomes the prefixed text message. -/
def get_test_cases_by_state (state : String) (limit : Int)
    (wiql : WiqlResponse) (details : List Int → DetailsResponse) : String :=
  let limit := clampListLimit limit
  match get_work_items_by_state state "Test Case" limit wiql details with
  | .error e => "Error retrieving test cases by state: " ++ e
  | .ok work_items_data =>
      let test_cases := parseLoopTestCases work_items_data
      "Found " ++ toString test_cases.length ++ " test cases in state '" ++
        state ++ "':\n" ++ renderTestCases test_cases

/-- Arguments of update_test_case (test_case_tools.py lines 154-167). -/
structure UpdateTestCaseArgs where
  test_case_id : Int
  title : Option String := none
  state : Option String := none
  assigned_to : Option String := none
  description : Option String := none
  test_steps : Option String := none
  priority : Option Int := none
  automation_status : Option String := none
  tags : Option String := none
  area_path : Option String := none
  iteration_path : Option String := none
deriving Repr, DecidableEq

/-- The updates dictionary of update_test_case (test_case_tools.py
lines 198-216): the field_mapping entries in insertion order, keeping
only the parameters that are not None. -/
def update_test_case_updates (a : UpdateTestCaseArgs) :
    List (String × FieldValue) :=
  optField "System.Title" (a.title.map FieldValue.str) ++
  optField "System.State" (a.state.map FieldValue.str) ++
  optField "System.AssignedTo" (a.assigned_to.map FieldValue.str) ++
  optField "System.Description" (a.description.map FieldValue.str) ++
  optField "Microsoft.VSTS.TCM.Steps" (a.test_steps.map FieldValue.str) ++
  optField "Microsoft.VSTS.Common.Priority" (a.priority.map FieldValue.int) ++
  optField "Microsoft.VSTS.TCM.AutomationStatus" (a.automation_status.map FieldValue.str) ++
  optField "System.Tags" (a.tags.map FieldValue.str) ++
  optField "System.AreaPath" (a.area_path.map FieldValue.str) ++
  optField "System.IterationPath" (a.iteration_path.map FieldValue.str)

/-- update_test_case (test_case_tools.py lines 154-230). The second
component records the transport update call the handler issued (none
when client.update_work_item was never reached). The handler fetches
first; the not-found sentinel and a type tag other than Test Case
return descriptive messages without updating; an empty updates
dictionary returns the no-fields message without updating; every
raised error becomes the prefixed text message. -/
def update_test_case (a : UpdateTestCaseArgs)
    (fetchResp updateResp : WorkItemResponse) :
    String × Option (Int × List (String × FieldValue)) :=
  match get_work_item_by_id a.test_case_id fetchResp with
  | .error e => ("Error updating test case " ++ toString a.test_case_id ++ ": " ++ e, none)
  | .ok none => ("Test case with ID " ++ toString a.test_case_id ++ " not found", none)
  | .ok (some existing_item) =>
      let work_item_type := typeTag existing_item
      if work_item_type ≠ "Test Case" then
        ("Work item " ++ toString a.test_case_id ++ " is not a test case (it's a " ++
          work_item_type ++ ")", none)
      else
        let updates := update_test_case_updates a
        if updates = [] then
          ("No fields provided for update. Please specify at least one field to update.", none)
        else
          match update_work_item a.test_case_id updates updateResp with
          | .error e =>
              ("Error updating test case " ++ toString a.test_case_id ++ ": " ++ e,
                some (a.test_case_id, updates))
          | .ok updated_item =>
              match parse_test_case updated_item with
              | .error e =>
                  ("Error updating test case " ++ toString a.test_case_id ++ ": " ++ e,
                    some (a.test_case_id, updates))
              | .ok updated_test_case =>
                  ("Successfully updated test case " ++ toString a.test_case_id ++ ":\n" ++
                    renderTestCase updated_test_case, some (a.test_case_id, updates))

/-- Arguments of create_test_case (test_case_tools.py lines 232-242). -/
structure CreateTestCaseArgs where
  title : String
  description : Option String := none
  test_steps : Option String := none
  priority : Option Int := none
  assigned_to : Option String := none
  area_path : Option String := none
  iteration_path : Option String := none
  automation_status : Option String := none
  tags : Option String := none
deriving Repr, DecidableEq

/-- The fields dictionary of create_test_case (test_case_tools.py
lines 262-283): the caller-supplied optional fields in source order,
then System.State = Design appended last unconditionally. -/
def create_test_case_fields (a : CreateTestCaseArgs) :
    List (String × FieldValue) :=
  optField "System.Description" (a.description.map FieldValue.str) ++
  optField "Microsoft.VSTS.TCM.Steps" (a.test_steps.map FieldValue.str) ++
  optField "Microsoft.VSTS.Common.Priority" (a.priority.map FieldValue.int) ++
  optField "System.AssignedTo" (a.assigned_to.map FieldValue.str) ++
  optField "System.AreaPath" (a.area_path.map FieldValue.str) ++
  optField "System.IterationPath" (a.iteration_path.map FieldValue.str) ++
  optField "Microsoft.VSTS.TCM.AutomationStatus" (a.automation_status.map FieldValue.str) ++
  optField "System.Tags" (a.tags.map FieldValue.str) ++
  [("System.State", FieldValue.str "Design")]

/-- create_test_case (test_case_tools.py lines 232-294). The second
component records the transport create call (type tag, title, field
map), which the handler always issues; every raised error becomes the
prefixed text message. -/
def create_test_case (a : CreateTestCaseArgs)
    (createResp : WorkItemResponse) :
    String × (String × String × List (String × FieldValue)) :=
  let fields := create_test_case_fields a
  let call := ("Test Case", a.title, fields)
  match create_work_item "Test Case" a.title fields createResp with
  | .error e => ("Error creating test case: " ++ e, call)
  | .ok created_item =>
      match parse_test_case created_item with
      | .error e => ("Error creating test case: " ++ e, call)
      | .ok created_test_case =>
          ("Successfully created test case " ++ toString created_test_case.id ++ ":\n" ++
            renderTestCase created_test_case, call)

/-- The base64 alphabet used by standard base64 encoding. -/
def base64Chars : List Char :=
  "ABCDEFGHIJKLMNOPQRSTUVWXYZabcdefghijklmnopqrstuvwxyz0123456789+/".data

/-- The base64 digit for a 6-bit group. -/
def b64Digit (n : Nat) : Char := base64Chars.getD n 'A'

/-- Standard base64 over a byte list, with padding. -/
def base64EncodeBytes : List Nat → String
  | [] => ""
  | [a] =>
      String.mk [b64Digit (a / 4), b64Digit (a % 4 * 16)] ++ "=="
  | [a, b] =>
      String.mk [b64Digit (a / 4), b64Digit (a % 4 * 16 + b / 16),
        b64Digit (b % 16 * 4)] ++ "="
  | a :: b :: c :: rest =>
      String.mk [b64Digit (a / 4), b64Digit (a % 4 * 16 + b / 16),
        b64Digit (b % 16 * 4 + c / 64), b64Digit (c % 64)] ++
        base64EncodeBytes rest

/-- base64 of an ASCII string (client.py lines 35-37 encode the
credential string as ASCII bytes before base64). -/
def base64Encode (s : String) : String :=
  base64EncodeBytes (s.data.map Char.toNat)

/-- The session headers set by AzureDevOpsClient.__init__ (client.py
lines 38-42). -/
structure SessionHeaders where
  authorization : String
  contentType : String
  userAgent : String
deriving Repr, DecidableEq

/-- The constructed Transport Client (client.py lines 26-58): base URL,
session headers and timeout (the retry and TLS session configuration
carries no data a claim observes). -/
structure AzureDevOpsClient where
  organization : String
  project : String
  base_url : String
  headers : SessionHeaders
  timeout : Nat
deriving Repr, DecidableEq

/-- AzureDevOpsClient.__init__ (client.py lines 26-58): builds the base
URL and the Basic authentication header from base64 of colon plus the
credential. The body contains no credential validation and raises
nothing (a non-ASCII credential would fail the ASCII encode; not
modelled), so the result is always ok; the Except type records that a
configuration failure is possible in principle but never produced. -/
def AzureDevOpsClient.init (organization project pat : String) :
    Except String AzureDevOpsClient :=
  .ok { organization := organization
        project := project
        base_url := "https://dev.azure.com/" ++ organization
        headers := { authorization := "Basic " ++ base64Encode (":" ++ pat)
                     contentType := "application/json"
                     userAgent := "Azure-DevOps-MCP-Server/1.0" }
        timeout := 30 }

/-- The AZURE_DEVOPS_PAT load-and-validate step of config.py lines
18-22: the environment value (none when the variable is unset) must be
set and non-empty, because the falsiness test on AZURE_DEVOPS_PAT is
true both for None and for the empty string; otherwise a ValueError is
raised when the configuration module loads. -/
def configLoadPAT (env : Option String) : Except String String :=
  match env with
  | none => .error ("AZURE_DEVOPS_PAT environment variable is required")
  | some pat =>
      if pat = "" then .error ("AZURE_DEVOPS_PAT environment variable is required")
      else .ok pat

/-! Theorems -/

/-- The parse loop of the user-story batch handlers keeps exactly the
in-order successful parses. -/
lemma parseLoopWorkItems_eq_filterMap (l : List RawRecord) :
    parseLoopWorkItems l = l.filterMap (fun d => (parse_work_item d).toOption) := by
  induction l with
  | nil => rfl
  | cons d rest ih =>
      cases h : parse_work_item d <;>
        simp [parseLoopWorkItems, List.filterMap_cons, h, Except.toOption, ih]

/-- The parse loop of the test-case batch handlers keeps exactly the
in-order successful parses. -/
lemma parseLoopTestCases_eq_filterMap (l : List RawRecord) :
    parseLoopTestCases l = l.filterMap (fun d => (parse_test_case d).toOption) := by
  induction l with
  | nil => rfl
  | cons d rest ih =>
      cases h : parse_test_case d <;>
        simp [parseLoopTestCases, List.filterMap_cons, h, Except.toOption, ih]

/-- C2: parse_work_item and parse_test_case raise exactly when the
identifier key is absent: a record without the identifier raises the
key error, a record with the identifier parses successfully whatever
other fields are missing, and a record with the whole field dictionary
missing parses with empty strings for the required string fields and
absent for the optional fields. -/
theorem C2_parse_raises_iff_id_absent (d : RawRecord) (i : Int) :
    (d.id = none →
      parse_work_item d = .error ("KeyError: id") ∧
      parse_test_case d = .error ("KeyError: id")) ∧
    (d.id = some i →
      (∃ w, parse_work_item d = .ok w ∧ w.id = i) ∧
      (∃ t, parse_test_case d = .ok t ∧ t.id = i)) ∧
    parse_work_item { id := some i, fields := none } =
      .ok { id := i, title := "", work_item_type := "", state := "",
            assigned_to := none, area_path := "", iteration_path := "",
            description := none, created_date := "", changed_date := "",
            tags := none } ∧
    parse_test_case { id := some i, fields := none } =
      .ok { id := i, title := "", work_item_type := "", state := "",
            assigned_to := none, area_path := "", iteration_path := "",
            description := none, created_date := "", changed_date := "",
            tags := none, test_steps := none, priority := none,
            automation_status := none } := by
  refine ⟨fun h => ?_, fun h => ?_, rfl, rfl⟩
  · constructor <;> simp [parse_work_item, parse_test_case, h]
  · constructor
    · unfold parse_work_item
      rw [h]
      exact ⟨_, rfl, rfl⟩
    · unfold parse_test_case
      rw [h]
      exact ⟨_, rfl, rfl⟩

/-- C2 witness: the theorem applied at a record with no identifier and
at a record with identifier 7 and no field dictionary. -/
theorem C2_witness :
    parse_work_item { id := none, fields := none } = .error ("KeyError: id") ∧
    (∃ w, parse_work_item { id := some 7, fields := none } = .ok w ∧ w.id = 7) := by
  exact ⟨((C2_parse_raises_iff_id_absent { id := none, fields := none } 0).1 rfl).1,
    ((C2_parse_raises_iff_id_absent { id := some 7, fields := none } 7).2.1 rfl).1⟩

/-- C3: on a 404 response the fetch-by-id operation returns the
not-found sentinel inside a successful result, while the update
operation raises a not-found error (re-wrapped by the catch-all except
clause of its own try block), so the two operations treat nonexistence
differently. -/
theorem C3_fetch_sentinel_update_raises (work_item_id : Int)
    (resp : WorkItemResponse) (updates : List (String × FieldValue))
    (h : resp.status = 404) :
    get_work_item_by_id work_item_id resp = .ok none ∧
    update_work_item work_item_id updates resp =
      .error ("Unexpected error: Work item " ++ toString work_item_id ++ " not found") ∧
    (update_work_item work_item_id updates resp).isOk = false := by
  refine ⟨?_, ?_, ?_⟩ <;>
    simp [get_work_item_by_id, update_work_item, h, Except.isOk, Except.toBool]

/-- C3 witness: the theorem applied at identifier 42 and a concrete
404 response. -/
theorem C3_witness :
    get_work_item_by_id 42 { status := 404, record := {}, text := "" } = .ok none ∧
    update_work_item 42 [] { status := 404, record := {}, text := "" } =
      .error ("Unexpected error: Work item 42 not found") := by
  have h := C3_fetch_sentinel_update_raises 42
    { status := 404, record := {}, text := "" } [] rfl
  exact ⟨h.1, h.2.1⟩

/-- C6: every list and filter-by-state handler clamps the limit into
[1,200] and every search handler clamps it into [1,100] before
querying; in particular limit 0 behaves as limit 1 and limit 9999
behaves as limit 200 for list and filter and as limit 100 for
search. -/
theorem C6_limit_clamping :
    (∀ limit : Int,
      1 ≤ clampListLimit limit ∧ clampListLimit limit ≤ 200 ∧
      1 ≤ clampSearchLimit limit ∧ clampSearchLimit limit ≤ 100) ∧
    clampListLimit 0 = 1 ∧ clampListLimit 9999 = 200 ∧
    clampSearchLimit 0 = 1 ∧ clampSearchLimit 9999 = 100 ∧
    (∀ wiql details,
      get_user_stories 0 wiql details = get_user_stories 1 wiql details ∧
      get_user_stories 9999 wiql details = get_user_stories 200 wiql details ∧
      get_test_cases 0 wiql details = get_test_cases 1 wiql details ∧
      get_test_cases 9999 wiql details = get_test_cases 200 wiql details) ∧
    (∀ state wiql details,
      get_stories_by_state state 0 wiql details =
        get_stories_by_state state 1 wiql details ∧
      get_stories_by_state state 9999 wiql details =
        get_stories_by_state state 200 wiql details ∧
      get_test_cases_by_state state 0 wiql details =
        get_test_cases_by_state state 1 wiql details ∧
      get_test_cases_by_state state 9999 wiql details =
        get_test_cases_by_state state 200 wiql details) ∧
    (∀ search_term wiql details,
      search_stories_by_title search_term 0 wiql details =
        search_stories_by_title search_term 1 wiql details ∧
      search_stories_by_title search_term 9999 wiql details =
        search_stories_by_title search_term 100 wiql details ∧
      search_test_cases_by_title search_term 0 wiql details =
        search_test_cases_by_title search_term 1 wiql details ∧
      search_test_cases_by_title search_term 9999 wiql details =
        search_test_cases_by_title search_term 100 wiql details) := by
  refine ⟨fun limit => ?_, by decide, by decide, by decide, by decide,
    fun wiql details => ?_, fun state wiql details => ?_,
    fun search_term wiql details => ?_⟩
  · exact ⟨le_min (le_max_left 1 limit) (by norm_num), min_le_right _ _,
      le_min (le_max_left 1 limit) (by norm_num), min_le_right _ _⟩
  · refine ⟨?_, ?_, ?_, ?_⟩
    · unfold get_user_stories
      rw [show clampListLimit 0 = clampListLimit 1 from by decide]
    · unfold get_user_stories
      rw [show clampListLimit 9999 = clampListLimit 200 from by decide]
    · unfold get_test_cases
      rw [show clampListLimit 0 = clampListLimit 1 from by decide]
    · unfold get_test_cases
      rw [show clampListLimit 9999 = clampListLimit 200 from by decide]
  · refine ⟨?_, ?_, ?_, ?_⟩
    · unfold get_stories_by_state
      rw [show clampListLimit 0 = clampListLimit 1 from by decide]
    · unfold get_stories_by_state
      rw [show clampListLimit 9999 = clampListLimit 200 from by decide]
    · unfold get_test_cases_by_state
      rw [show clampListLimit 0 = clampListLimit 1 from by decide]
    · unfold get_test_cases_by_state
      rw [show clampListLimit 9999 = clampListLimit 200 from by decide]
  · refine ⟨?_, ?_, ?_, ?_⟩
    · unfold search_stories_by_title
      rw [show clampSearchLimit 0 = clampSearchLimit 1 from by decide]
    · unfold search_stories_by_title
      rw [show clampSearchLimit 9999 = clampSearchLimit 100 from by decide]
    · unfold search_test_cases_by_title
      rw [show clampSearchLimit 0 = clampSearchLimit 1 from by decide]
    · unfold search_test_cases_by_title
      rw [show clampSearchLimit 9999 = clampSearchLimit 100 from by decide]

/-- C8 counterexample: constructing the Transport Client directly with
the empty credential does not fail — __init__ performs no credential
validation, so the client is built, with the Basic header derived from
base64 of a lone colon. -/
theorem C8_counterexample :
    AzureDevOpsClient.init "executeauto" "Udemy" "" =
      .ok { organization := "executeauto", project := "Udemy",
            base_url := "https://dev.azure.com/executeauto",
            headers := { authorization := "Basic Og=="
                         contentType := "application/json"
                         userAgent := "Azure-DevOps-MCP-Server/1.0" }
            timeout := 30 } := by
  rfl

/-- C8 amended: the constructor itself never rejects a credential —
construction with the empty credential succeeds for every organization
and project — while the configuration loader is what raises the
configuration error for an absent or empty AZURE_DEVOPS_PAT before
startup can construct a client. -/
theorem C8_empty_credential_rejected_by_config (organization project : String) :
    (∃ c, AzureDevOpsClient.init organization project "" = .ok c) ∧
    configLoadPAT (some "") =
      .error ("AZURE_DEVOPS_PAT environment variable is required") ∧
    configLoadPAT none =
      .error ("AZURE_DEVOPS_PAT environment variable is required") ∧
    (∀ pat, pat ≠ "" → configLoadPAT (some pat) = .ok pat) := by
  refine ⟨⟨_, rfl⟩, rfl, rfl, fun pat hp => ?_⟩
  simp [configLoadPAT, hp]

/-- C8 witness: the amended theorem applied at the default organization
and project, with the non-emptiness hypothesis discharged at a concrete
credential. -/
theorem C8_witness :
    (∃ c, AzureDevOpsClient.init "executeauto" "Udemy" "" = .ok c) ∧
    configLoadPAT (some "token123") = .ok "token123" := by
  have h := C8_empty_credential_rejected_by_config "executeauto" "Udemy"
  exact ⟨h.1, h.2.2.2 "token123" (by decide)⟩

/-- Every entry contributed by one optional field carries that field's
external name as its key. -/
lemma optField_key {p : String × FieldValue} {name : String}
    {v : Option FieldValue} (h : p ∈ optField name v) : p.1 = name := by
  cases v with
  | none => simp [optField] at h
  | some x =>
      simp only [optField, List.mem_singleton] at h
      rw [h]

/-- A System.State entry can only come from an optional field whose
external name is System.State. -/
lemma optField_state_ne {v : FieldValue} {name : String}
    {ov : Option FieldValue} (hname : name ≠ "System.State")
    (h : ("System.State", v) ∈ optField name ov) : False := by
  cases ov with
  | none => simp [optField] at h
  | some x =>
      simp only [optField, List.mem_singleton] at h
      exact hname ((Prod.ext_iff.1 h).1.symm)

/-- C4: both create handlers place the default initial state entry
(System.State = New for user stories, Design for test cases) at the
very end of the field map, after every caller-supplied field; no other
System.State value can appear in the map whatever the caller passes;
the handler submits exactly this map to the transport create
operation, and the final operation of the resulting patch document is
the add of the default state. -/
theorem C4_create_forces_default_state (a : CreateUserStoryArgs)
    (b : CreateTestCaseArgs) (resp : WorkItemResponse) :
    (create_user_story_fields a).getLast? =
      some ("System.State", FieldValue.str "New") ∧
    (∀ v, ("System.State", v) ∈ create_user_story_fields a →
      v = FieldValue.str "New") ∧
    (create_user_story a resp).2 =
      ("User Story", a.title, create_user_story_fields a) ∧
    (create_patch_operations "User Story" a.title
        (create_user_story_fields a)).getLast? =
      some { op := "add", path := "/fields/System.State",
             value := FieldValue.str "New" } ∧
    (create_test_case_fields b).getLast? =
      some ("System.State", FieldValue.str "Design") ∧
    (∀ v, ("System.State", v) ∈ create_test_case_fields b →
      v = FieldValue.str "Design") ∧
    (create_test_case b resp).2 =
      ("Test Case", b.title, create_test_case_fields b) ∧
    (create_patch_operations "Test Case" b.title
        (create_test_case_fields b)).getLast? =
      some { op := "add", path := "/fields/System.State",
             value := FieldValue.str "Design" } := by
  refine ⟨?_, ?_, ?_, ?_, ?_, ?_, ?_, ?_⟩
  · simp [create_user_story_fields, List.getLast?_append]
  · intro v hv
    simp only [create_user_story_fields, List.append_assoc, List.mem_append,
      List.mem_singleton] at hv
    rcases hv with h | h | h | h | h | h | h | h
    all_goals first
      | exact (optField_state_ne (by decide) h).elim
      | (rw [Prod.ext_iff] at h; exact h.2)
  · simp only [create_user_story]
    cases h : create_work_item "User Story" a.title
        (create_user_story_fields a) resp with
    | error e => rfl
    | ok created_item =>
        cases h2 : parse_work_item created_item <;> simp [h2]
  · simp [create_patch_operations, create_user_story_fields,
      List.map_append, List.getLast?_append, List.getLast?_cons,
      List.getLast?_concat]
  · simp [create_test_case_fields, List.getLast?_append]
  · intro v hv
    simp only [create_test_case_fields, List.append_assoc, List.mem_append,
      List.mem_singleton] at hv
    rcases hv with h | h | h | h | h | h | h | h | h
    all_goals first
      | exact (optField_state_ne (by decide) h).elim
      | (rw [Prod.ext_iff] at h; exact h.2)
  · simp only [create_test_case]
    cases h : create_work_item "Test Case" b.title
        (create_test_case_fields b) resp with
    | error e => rfl
    | ok created_item =>
        cases h2 : parse_test_case created_item <;> simp [h2]
  · simp [create_patch_operations, create_test_case_fields,
      List.map_append, List.getLast?_append, List.getLast?_cons,
      List.getLast?_concat]

/-- C4 witness: the theorem applied at concrete create arguments (a
story with tags, a test case with a description) and a concrete
success response, with the membership implication discharged at the
state entry itself. -/
theorem C4_witness :
    (create_user_story_fields { title := "t", tags := some "a;b" }).getLast? =
      some ("System.State", FieldValue.str "New") ∧
    FieldValue.str "New" = FieldValue.str "New" ∧
    (create_test_case_fields { title := "u", description := some "d" }).getLast? =
      some ("System.State", FieldValue.str "Design") := by
  have h := C4_create_forces_default_state
    { title := "t", tags := some "a;b" }
    { title := "u", description := some "d" }
    { status := 200, record := {}, text := "" }
  exact ⟨h.1, h.2.1 (FieldValue.str "New") (by decide), h.2.2.2.2.1⟩

/-- C5: both update handlers fetch the record first; when the fetch
returns the not-found sentinel, or the fetched record's type tag is
not the handler's expected kind, the handler answers with the
descriptive not-found or wrong-type message and never reaches the
transport update operation (the recorded update call is none). -/
theorem C5_update_fetch_and_type_guard (a : UpdateStoryArgs)
    (b : UpdateTestCaseArgs) (fetchResp updateResp : WorkItemResponse) :
    (get_work_item_by_id a.story_id fetchResp = .ok none →
      update_story a fetchResp updateResp =
        ("User story with ID " ++ toString a.story_id ++ " not found", none)) ∧
    (∀ r, get_work_item_by_id a.story_id fetchResp = .ok (some r) →
      typeTag r ≠ "User Story" →
      update_story a fetchResp updateResp =
        ("Work item " ++ toString a.story_id ++ " is not a user story (it's a " ++
          typeTag r ++ ")", none)) ∧
    (get_work_item_by_id b.test_case_id fetchResp = .ok none →
      update_test_case b fetchResp updateResp =
        ("Test case with ID " ++ toString b.test_case_id ++ " not found", none)) ∧
    (∀ r, get_work_item_by_id b.test_case_id fetchResp = .ok (some r) →
      typeTag r ≠ "Test Case" →
      update_test_case b fetchResp updateResp =
        ("Work item " ++ toString b.test_case_id ++ " is not a test case (it's a " ++
          typeTag r ++ ")", none)) := by
  refine ⟨fun h => ?_, fun r h ht => ?_, fun h => ?_, fun r h ht => ?_⟩
  · simp only [update_story]
    rw [h]
  · simp only [update_story]
    rw [h]
    simp [ht]
  · simp only [update_test_case]
    rw [h]
  · simp only [update_test_case]
    rw [h]
    simp [ht]

/-- C5 witness: the theorem applied to identifier 8 with a 404 fetch
response (not-found branch) and to a fetched record whose type tag is
Bug (wrong-type branch for the story handler). -/
theorem C5_witness :
    update_story { story_id := 8, title := some "T" }
      { status := 404, record := {}, text := "" }
      { status := 200, record := {}, text := "" } =
      ("User story with ID 8 not found", none) ∧
    update_story { story_id := 9, title := some "T" }
      { status := 200,
        record := { id := some 9, fields := some { workItemType := some "Bug" } },
        text := "" }
      { status := 200, record := {}, text := "" } =
      ("Work item 9 is not a user story (it's a Bug)", none) := by
  constructor
  · exact (C5_update_fetch_and_type_guard { story_id := 8, title := some "T" }
      { test_case_id := 8 } { status := 404, record := {}, text := "" }
      { status := 200, record := {}, text := "" }).1 rfl
  · exact (C5_update_fetch_and_type_guard { story_id := 9, title := some "T" }
      { test_case_id := 9 }
      { status := 200,
        record := { id := some 9, fields := some { workItemType := some "Bug" } },
        text := "" }
      { status := 200, record := {}, text := "" }).2.1
      { id := some 9, fields := some { workItemType := some "Bug" } } rfl (by decide)

/-- C9: the user-story detail handler performs no type-tag check — for
every fetched record (of any type tag, for example a Test Case) it
renders the story detail view — while the test-case detail handler
answers a wrong-type message whenever the fetched record's type tag is
not Test Case. -/
theorem C9_story_details_no_type_check (story_id : Int)
    (resp : WorkItemResponse) (r : RawRecord) (wid : Int)
    (hfetch : get_work_item_by_id story_id resp = .ok (some r))
    (hid : r.id = some wid) :
    (∃ w, parse_work_item r = .ok w ∧
      get_story_details story_id resp = "Story Details:\n" ++ renderWorkItem w) ∧
    (typeTag r ≠ "Test Case" →
      get_test_case_details story_id resp =
        "Work item " ++ toString story_id ++ " is not a test case (it's a " ++
          typeTag r ++ ")") := by
  constructor
  · have hw : parse_work_item r = Except.ok
        { id := wid,
          title := ((r.fields.getD {}).title).getD "",
          work_item_type := ((r.fields.getD {}).workItemType).getD "",
          state := ((r.fields.getD {}).state).getD "",
          assigned_to := extractAssignedTo (r.fields.getD {}).assignedTo,
          area_path := ((r.fields.getD {}).areaPath).getD "",
          iteration_path := ((r.fields.getD {}).iterationPath).getD "",
          description := (r.fields.getD {}).description,
          created_date := ((r.fields.getD {}).createdDate).getD "",
          changed_date := ((r.fields.getD {}).changedDate).getD "",
          tags := (r.fields.getD {}).tags } := by
      unfold parse_work_item
      rw [hid]
    refine ⟨_, hw, ?_⟩
    simp [get_story_details, hfetch, hw]
  · intro ht
    simp only [get_test_case_details]
    rw [hfetch]
    simp [ht]

/-- C9 witness: the theorem applied to a fetched record whose type tag
is Test Case (the story handler still renders the detail view) and to
one whose type tag is User Story (the test-case handler answers the
wrong-type message). -/
theorem C9_witness :
    (∃ w, parse_work_item
        { id := some 3, fields := some { workItemType := some "Test Case" } } = .ok w ∧
      get_story_details 3
        { status := 200,
          record := { id := some 3, fields := some { workItemType := some "Test Case" } },
          text := "" } = "Story Details:\n" ++ renderWorkItem w) ∧
    get_test_case_details 4
      { status := 200,
        record := { id := some 4, fields := some { workItemType := some "User Story" } },
        text := "" } =
      "Work item 4 is not a test case (it's a User Story)" := by
  constructor
  · exact (C9_story_details_no_type_check 3
      { status := 200,
        record := { id := some 3, fields := some { workItemType := some "Test Case" } },
        text := "" }
      { id := some 3, fields := some { workItemType := some "Test Case" } } 3
      rfl rfl).1
  · exact (C9_story_details_no_type_check 4
      { status := 200,
        record := { id := some 4, fields := some { workItemType := some "User Story" } },
        text := "" }
      { id := some 4, fields := some { workItemType := some "User Story" } } 4
      rfl rfl).2 (by decide)

/-- C10: when every optional field parameter is absent and the fetched
record exists with the expected type tag, both update handlers answer
the exact no-fields message and never reach the transport update
operation (the recorded update call is none), leaving the remote
record unchanged. -/
theorem C10_no_fields_no_update (a : UpdateStoryArgs)
    (b : UpdateTestCaseArgs) (fetchResp updateResp : WorkItemResponse)
    (r s : RawRecord) :
    (get_work_item_by_id a.story_id fetchResp = .ok (some r) →
      typeTag r = "User Story" →
      a.title = none → a.state = none → a.assigned_to = none →
      a.description = none → a.priority = none → a.story_points = none →
      a.tags = none → a.area_path = none → a.iteration_path = none →
      update_story a fetchResp updateResp =
        ("No fields provided for update. Please specify at least one field to update.",
          none)) ∧
    (get_work_item_by_id b.test_case_id fetchResp = .ok (some s) →
      typeTag s = "Test Case" →
      b.title = none → b.state = none → b.assigned_to = none →
      b.description = none → b.test_steps = none → b.priority = none →
      b.automation_status = none → b.tags = none → b.area_path = none →
      b.iteration_path = none →
      update_test_case b fetchResp updateResp =
        ("No fields provided for update. Please specify at least one field to update.",
          none)) := by
  constructor
  · intro hf ht h1 h2 h3 h4 h5 h6 h7 h8 h9
    simp only [update_story]
    rw [hf]
    simp [ht, update_story_updates, optField, h1, h2, h3, h4, h5, h6, h7, h8, h9]
  · intro hf ht h1 h2 h3 h4 h5 h6 h7 h8 h9 h10
    simp only [update_test_case]
    rw [hf]
    simp [ht, update_test_case_updates, optField,
      h1, h2, h3, h4, h5, h6, h7, h8, h9, h10]

/-- C10 witness: the theorem applied to identifier 8 with an existing
User Story record and all optional parameters absent. -/
theorem C10_witness :
    update_story { story_id := 8 }
      { status := 200,
        record := { id := some 8, fields := some { workItemType := some "User Story" } },
        text := "" }
      { status := 200, record := {}, text := "" } =
      ("No fields provided for update. Please specify at least one field to update.",
        none) := by
  exact (C10_no_fields_no_update { story_id := 8 } { test_case_id := 8 }
    { status := 200,
      record := { id := some 8, fields := some { workItemType := some "User Story" } },
      text := "" }
    { status := 200, record := {}, text := "" }
    { id := some 8, fields := some { workItemType := some "User Story" } }
    { id := some 8, fields := some { workItemType := some "User Story" } }).1
    rfl rfl rfl rfl rfl rfl rfl rfl rfl rfl rfl

/-- C7: the batch parse loops skip exactly the records whose parse
raises, keep the successes in their original order, and every batch
handler renders as its count precisely the length of the list of
successfully parsed records returned by the client. -/
theorem C7_batch_skip_and_count (xs ys : List RawRecord) (d : RawRecord)
    (limit : Int) (search_term state : String) (wiql : WiqlResponse)
    (details : List Int → DetailsResponse) :
    (∀ e, parse_work_item d = .error e →
      parseLoopWorkItems (xs ++ d :: ys) =
        parseLoopWorkItems xs ++ parseLoopWorkItems ys) ∧
    (∀ w, parse_work_item d = .ok w →
      parseLoopWorkItems (xs ++ d :: ys) =
        parseLoopWorkItems xs ++ w :: parseLoopWorkItems ys) ∧
    (∀ e, parse_test_case d = .error e →
      parseLoopTestCases (xs ++ d :: ys) =
        parseLoopTestCases xs ++ parseLoopTestCases ys) ∧
    (∀ t, parse_test_case d = .ok t →
      parseLoopTestCases (xs ++ d :: ys) =
        parseLoopTestCases xs ++ t :: parseLoopTestCases ys) ∧
    (∀ l, get_work_items "User Story" (clampListLimit limit) wiql details = .ok l →
      get_user_stories limit wiql details =
        "Retrieved " ++ toString (parseLoopWorkItems l).length ++
          " user stories:\n" ++ renderWorkItems (parseLoopWorkItems l)) ∧
    (∀ l, get_work_items "Test Case" (clampListLimit limit) wiql details = .ok l →
      get_test_cases limit wiql details =
        "Retrieved " ++ toString (parseLoopTestCases l).length ++
          " test cases:\n" ++ renderTestCases (parseLoopTestCases l)) ∧
    (∀ l, search_work_items_by_title search_term "User Story"
        (clampSearchLimit limit) wiql details = .ok l →
      search_stories_by_title search_term limit wiql details =
        "Found " ++ toString (parseLoopWorkItems l).length ++
          " stories matching '" ++ search_term ++ "':\n" ++
          renderWorkItems (parseLoopWorkItems l)) ∧
    (∀ l, search_work_items_by_title search_term "Test Case"
        (clampSearchLimit limit) wiql details = .ok l →
      search_test_cases_by_title search_term limit wiql details =
        "Found " ++ toString (parseLoopTestCases l).length ++
          " test cases matching '" ++ search_term ++ "':\n" ++
          renderTestCases (parseLoopTestCases l)) ∧
    (∀ l, get_work_items_by_state state "User Story"
        (clampListLimit limit) wiql details = .ok l →
      get_stories_by_state state limit wiql details =
        "Found " ++ toString (parseLoopWorkItems l).length ++
          " stories in state '" ++ state ++ "':\n" ++
          renderWorkItems (parseLoopWorkItems l)) ∧
    (∀ l, get_work_items_by_state state "Test Case"
        (clampListLimit limit) wiql details = .ok l →
      get_test_cases_by_state state limit wiql details =
        "Found " ++ toString (parseLoopTestCases l).length ++
          " test cases in state '" ++ state ++ "':\n" ++
          renderTestCases (parseLoopTestCases l)) := by
  refine ⟨fun e he => ?_, fun w hw => ?_, fun e he => ?_, fun t ht => ?_,
    fun l hl => ?_, fun l hl => ?_, fun l hl => ?_, fun l hl => ?_,
    fun l hl => ?_, fun l hl => ?_⟩
  · simp [parseLoopWorkItems_eq_filterMap, List.filterMap_append,
      List.filterMap_cons, he, Except.toOption]
  · simp [parseLoopWorkItems_eq_filterMap, List.filterMap_append,
      List.filterMap_cons, hw, Except.toOption]
  · simp [parseLoopTestCases_eq_filterMap, List.filterMap_append,
      List.filterMap_cons, he, Except.toOption]
  · simp [parseLoopTestCases_eq_filterMap, List.filterMap_append,
      List.filterMap_cons, ht, Except.toOption]
  · simp only [get_user_stories]
    rw [hl]
  · simp only [get_test_cases]
    rw [hl]
  · simp only [search_stories_by_title]
    rw [hl]
  · simp only [search_test_cases_by_title]
    rw [hl]
  · simp only [get_stories_by_state]
    rw [hl]
  · simp only [get_test_cases_by_state]
    rw [hl]

/-- C7 witness: the theorem applied to a batch holding one parseable
and one unparseable record: the unparseable one is skipped and the
rendered count is 1. -/
theorem C7_witness :
    parseLoopWorkItems
      ([{ id := some 101, fields := some { title := some "Login flow" } }] ++
        { id := none, fields := none } :: []) =
      parseLoopWorkItems [{ id := some 101, fields := some { title := some "Login flow" } }] ++
        parseLoopWorkItems [] ∧
    get_user_stories 0
      { status := 200, workItemIds := [101, 102], text := "" }
      (fun _ => { status := 200,
                  value := [{ id := some 101, fields := some { title := some "Login flow" } },
                    { id := none, fields := none }],
                  text := "" }) =
      "Retrieved " ++ toString (parseLoopWorkItems
        [{ id := some 101, fields := some { title := some "Login flow" } },
          { id := none, fields := none }]).length ++
        " user stories:\n" ++ renderWorkItems (parseLoopWorkItems
        [{ id := some 101, fields := some { title := some "Login flow" } },
          { id := none, fields := none }]) := by
  have h := C7_batch_skip_and_count
    [{ id := some 101, fields := some { title := some "Login flow" } }] []
    { id := none, fields := none } 0 "" ""
    { status := 200, workItemIds := [101, 102], text := "" }
    (fun _ => { status := 200,
                value := [{ id := some 101, fields := some { title := some "Login flow" } },
                  { id := none, fields := none }],
                text := "" })
  exact ⟨h.1 ("KeyError: id") rfl,
    h.2.2.2.2.1
      [{ id := some 101, fields := some { title := some "Login flow" } },
        { id := none, fields := none }] rfl⟩

/-- C1: every tool handler is a total function into String (it cannot
raise by construction), and every error raised by the Transport Client
or by the Response Parser surfaces as the handler's prefixed text
message Error doing-X followed by the error details: one conjunct per
error path of each of the twelve handlers. -/
theorem C1_handlers_convert_errors (limit : Int)
    (search_term state : String) (a : UpdateStoryArgs)
    (b : UpdateTestCaseArgs) (c : CreateUserStoryArgs)
    (k : CreateTestCaseArgs) (story_id test_case_id : Int)
    (wiql : WiqlResponse) (details : List Int → DetailsResponse)
    (resp fetchResp updateResp createResp : WorkItemResponse) :
    (∀ e, get_work_items "User Story" (clampListLimit limit) wiql details = .error e →
      get_user_stories limit wiql details = "Error retrieving user stories: " ++ e) ∧
    (∀ e, get_work_item_by_id story_id resp = .error e →
      get_story_details story_id resp = "Error retrieving story details: " ++ e) ∧
    (∀ r e, get_work_item_by_id story_id resp = .ok (some r) →
      parse_work_item r = .error e →
      get_story_details story_id resp = "Error retrieving story details: " ++ e) ∧
    (∀ e, search_work_items_by_title search_term "User Story"
        (clampSearchLimit limit) wiql details = .error e →
      search_stories_by_title search_term limit wiql details =
        "Error searching stories: " ++ e) ∧
    (∀ e, get_work_items_by_state state "User Story"
        (clampListLimit limit) wiql details = .error e →
      get_stories_by_state state limit wiql details =
        "Error retrieving stories by state: " ++ e) ∧
    (∀ e, get_work_item_by_id a.story_id fetchResp = .error e →
      update_story a fetchResp updateResp =
        ("Error updating user story " ++ toString a.story_id ++ ": " ++ e, none)) ∧
    (∀ r e, get_work_item_by_id a.story_id fetchResp = .ok (some r) →
      typeTag r = "User Story" → update_story_updates a ≠ [] →
      update_work_item a.story_id (update_story_updates a) updateResp = .error e →
      update_story a fetchResp updateResp =
        ("Error updating user story " ++ toString a.story_id ++ ": " ++ e,
          some (a.story_id, update_story_updates a))) ∧
    (∀ r u e, get_work_item_by_id a.story_id fetchResp = .ok (some r) →
      typeTag r = "User Story" → update_story_updates a ≠ [] →
      update_work_item a.story_id (update_story_updates a) updateResp = .ok u →
      parse_work_item u = .error e →
      update_story a fetchResp updateResp =
        ("Error updating user story " ++ toString a.story_id ++ ": " ++ e,
          some (a.story_id, update_story_updates a))) ∧
    (∀ e, create_work_item "User Story" c.title (create_user_story_fields c)
        createResp = .error e →
      (create_user_story c createResp).1 = "Error creating user story: " ++ e) ∧
    (∀ u e, create_work_item "User Story" c.title (create_user_story_fields c)
        createResp = .ok u → parse_work_item u = .error e →
      (create_user_story c createResp).1 = "Error creating user story: " ++ e) ∧
    (∀ e, get_work_items "Test Case" (clampListLimit limit) wiql details = .error e →
      get_test_cases limit wiql details = "Error retrieving test cases: " ++ e) ∧
    (∀ e, get_work_item_by_id test_case_id resp = .error e →
      get_test_case_details test_case_id resp =
        "Error retrieving test case details: " ++ e) ∧
    (∀ r e, get_work_item_by_id test_case_id resp = .ok (some r) →
      typeTag r = "Test Case" → parse_test_case r = .error e →
      get_test_case_details test_case_id resp =
        "Error retrieving test case details: " ++ e) ∧
    (∀ e, search_work_items_by_title search_term "Test Case"
        (clampSearchLimit limit) wiql details = .error e →
      search_test_cases_by_title search_term limit wiql details =
        "Error searching test cases: " ++ e) ∧
    (∀ e, get_work_items_by_state state "Test Case"
        (clampListLimit limit) wiql details = .error e →
      get_test_cases_by_state state limit wiql details =
        "Error retrieving test cases by state: " ++ e) ∧
    (∀ e, get_work_item_by_id b.test_case_id fetchResp = .error e →
      update_test_case b fetchResp updateResp =
        ("Error updating test case " ++ toString b.test_case_id ++ ": " ++ e, none)) ∧
    (∀ r e, get_work_item_by_id b.test_case_id fetchResp = .ok (some r) →
      typeTag r = "Test Case" → update_test_case_updates b ≠ [] →
      update_work_item b.test_case_id (update_test_case_updates b) updateResp = .error e →
      update_test_case b fetchResp updateResp =
        ("Error updating test case " ++ toString b.test_case_id ++ ": " ++ e,
          some (b.test_case_id, update_test_case_updates b))) ∧
    (∀ r u e, get_work_item_by_id b.test_case_id fetchResp = .ok (some r) →
      typeTag r = "Test Case" → update_test_case_updates b ≠ [] →
      update_work_item b.test_case_id (update_test_case_updates b) updateResp = .ok u →
      parse_test_case u = .error e →
      update_test_case b fetchResp updateResp =
        ("Error updating test case " ++ toString b.test_case_id ++ ": " ++ e,
          some (b.test_case_id, update_test_case_updates b))) ∧
    (∀ e, create_work_item "Test Case" k.title (create_test_case_fields k)
        createResp = .error e →
      (create_test_case k createResp).1 = "Error creating test case: " ++ e) ∧
    (∀ u e, create_work_item "Test Case" k.title (create_test_case_fields k)
        createResp = .ok u → parse_test_case u = .error e →
      (create_test_case k createResp).1 = "Error creating test case: " ++ e) := by
  refine ⟨fun e h => ?_, fun e h => ?_, fun r e h hp => ?_, fun e h => ?_,
    fun e h => ?_, fun e h => ?_, fun r e hf ht hne hu => ?_,
    fun r u e hf ht hne hu hp => ?_, fun e h => ?_, fun u e h hp => ?_,
    fun e h => ?_, fun e h => ?_, fun r e h ht hp => ?_, fun e h => ?_,
    fun e h => ?_, fun e h => ?_, fun r e hf ht hne hu => ?_,
    fun r u e hf ht hne hu hp => ?_, fun e h => ?_, fun u e h hp => ?_⟩
  · simp only [get_user_stories]
    rw [h]
  · simp only [get_story_details]
    rw [h]
  · simp [get_story_details, h, hp]
  · simp only [search_stories_by_title]
    rw [h]
  · simp only [get_stories_by_state]
    rw [h]
  · simp only [update_story]
    rw [h]
  · simp only [update_story]
    rw [hf]
    simp [ht, hne, hu]
  · simp only [update_story]
    rw [hf]
    simp [ht, hne, hu, hp]
  · simp [create_user_story, h]
  · simp [create_user_story, h, hp]
  · simp only [get_test_cases]
    rw [h]
  · simp only [get_test_case_details]
    rw [h]
  · simp [get_test_case_details, h, ht, hp]
  · simp only [search_test_cases_by_title]
    rw [h]
  · simp only [get_test_cases_by_state]
    rw [h]
  · simp only [update_test_case]
    rw [h]
  · simp only [update_test_case]
    rw [hf]
    simp [ht, hne, hu]
  · simp only [update_test_case]
    rw [hf]
    simp [ht, hne, hu, hp]
  · simp [create_test_case, h]
  · simp [create_test_case, h, hp]

/-- C1 witness: the theorem applied at a concrete failing WIQL
response (HTTP 500) for the two list handlers and at a failing fetch
for the story update handler. -/
theorem C1_witness :
    get_user_stories 5 { status := 500, workItemIds := [], text := "boom" }
      (fun _ => { status := 200, value := [], text := "" }) =
      "Error retrieving user stories: " ++ "HTTP Error 500: boom" ∧
    get_test_cases 5 { status := 500, workItemIds := [], text := "boom" }
      (fun _ => { status := 200, value := [], text := "" }) =
      "Error retrieving test cases: " ++ "HTTP Error 500: boom" ∧
    update_story { story_id := 3, title := some "T" }
      { status := 503, record := {}, text := "down" }
      { status := 200, record := {}, text := "" } =
      ("Error updating user story 3: " ++ "HTTP Error 503: down", none) := by
  have h := C1_handlers_convert_errors 5 "" "" { story_id := 3, title := some "T" }
    { test_case_id := 3 } { title := "t" } { title := "u" } 1 1
    { status := 500, workItemIds := [], text := "boom" }
    (fun _ => { status := 200, value := [], text := "" })
    { status := 200, record := {}, text := "" }
    { status := 503, record := {}, text := "down" }
    { status := 200, record := {}, text := "" }
    { status := 200, record := {}, text := "" }
  exact ⟨h.1 ("HTTP Error 500: boom") rfl,
    h.2.2.2.2.2.2.2.2.2.2.1 ("HTTP Error 500: boom") rfl,
    h.2.2.2.2.2.1 ("HTTP Error 503: down") rfl⟩

end AzureDevOpsMCP
